import Mathlib

/-!
Verification of the offline QR token generator of the `jeg-employee-app`
repository (`src/utils/qrGenerator.ts`, class `OfflineQRGenerator`).

Shallow embedding conventions:
* The mutable instance fields (`keys`, `employeeId`, `deviceKey`, `lastSync`)
  become an explicit `KeyBundle` state that each method takes and returns.
* `Date.now()` becomes an explicit `now : Nat` argument (milliseconds).
* `Crypto.getRandomBytesAsync(8)` becomes an explicit `nonceBytes : List Nat`
  argument (the platform's random bytes, each < 256).
* `Crypto.digestStringAsync(SHA256, ·, HEX)` is an external crypto primitive;
  it is abstracted as an explicit function argument `sha256hex : String → String`.
* `fetch` results become a `FetchResult` argument: network error, non-2xx
  response, 2xx with unparseable body, or 2xx with a parsed JSON body. JSON is
  untyped at runtime, so fields the code guards with `||` / `?.` are `Option`s.
* JavaScript `x || d` truthiness is modelled exactly: `0`, `""` and absent
  values fall through to the default; arrays (even empty ones) do not.
* `JSON.stringify` on the object literals of the source is modelled by explicit
  string construction in the source's field order, with JS string escaping.
* `btoa` is modelled as base64 over the bytes of the (ASCII) JSON string.
* `AsyncStorage` holds the structured record that
  `JSON.parse(JSON.stringify ·)` reproduces for these plain data objects.
-/

namespace JegQR

/-- Models the `QRKey` interface of `qrGenerator.ts`: a signing key with its
validity window (`hourIndex` is optional in the source). -/
structure QRKey where
  timestamp : Nat
  key : String
  validFrom : Nat
  validTo : Nat
  hourIndex : Option Nat
deriving DecidableEq

/-- Models the mutable fields of `OfflineQRGenerator`:
`keys`, `employeeId`, `deviceKey`, `lastSync`. -/
structure KeyBundle where
  keys : List QRKey
  employeeId : String
  deviceKey : String
  lastSync : Nat
deriving DecidableEq

/-- Models the `employee` object of the `KeySyncResponse` interface. -/
structure SyncEmployee where
  id : String
  employeeCode : String
  name : String
  activeDevices : Nat
deriving DecidableEq

/-- Models a parsed sync response body. The declared TypeScript interface
`KeySyncResponse` promises all fields, but the JSON is unchecked at runtime and
the code guards each access (`data.keys || []`, `data.employee?.id || ""`,
`data.syncTimestamp || Date.now()`), so the fields are `Option`s here.
The `keyInfo` field is never read by the code and is omitted. -/
structure KeySyncResponse where
  keys : Option (List QRKey)
  syncTimestamp : Option Nat
  employee : Option SyncEmployee
deriving DecidableEq

/-- Models the outcome of the `fetch` call in `syncKeys`: a network error
(rejected promise), a non-2xx response (`response.ok` false) with its status
and body text, a 2xx response whose body fails `response.json()`, or a 2xx
response with a parsed JSON body. -/
inductive FetchResult where
  | netError : FetchResult
  | httpError (status : Nat) (body : String) : FetchResult
  | okMalformed : FetchResult
  | okJson (data : KeySyncResponse) : FetchResult
deriving DecidableEq

/-- Models JavaScript `x || d` for an optional number `x`: `0` is falsy. -/
def jsOrNat : Option Nat → Nat → Nat
  | some n, d => if n = 0 then d else n
  | none, d => d

/-- Models JavaScript `x || d` for an optional string `x`: `""` is falsy. -/
def jsOrStr : Option String → String → String
  | some s, d => if s = "" then d else s
  | none, d => d

/-- Models JavaScript `x || d` for an optional array `x`: every array is
truthy, even the empty one, so only absence falls through to the default. -/
def jsOrList : Option (List QRKey) → List QRKey → List QRKey
  | some l, _ => l
  | none, d => d

/-- Models `data.employee?.id || ""` in `syncKeys`. -/
def employeeIdOf (emp : Option SyncEmployee) : String :=
  jsOrStr (emp.map SyncEmployee.id) ""

/-- Models `syncKeys`: on a parsed 2xx body it overwrites `keys`,
`employeeId` and `lastSync` (with the source's `||` fallbacks), keeps
`deviceKey`, and returns `true`; on any other fetch outcome it returns `false`
with the state untouched (the `catch` / non-ok branches assign nothing). -/
def syncKeys (s : KeyBundle) (res : FetchResult) (now : Nat) : Bool × KeyBundle :=
  match res with
  | FetchResult.okJson data =>
      (true,
        { keys := jsOrList data.keys []
          employeeId := employeeIdOf data.employee
          deviceKey := s.deviceKey
          lastSync := jsOrNat data.syncTimestamp now })
  | _ => (false, s)

/-- Models the key-window predicate `now >= key.validFrom && now <= key.validTo`
used by both `generateOfflineQR` and `hasValidKeys`. -/
def keyValidAt (now : Nat) (k : QRKey) : Bool :=
  decide (k.validFrom ≤ now) && decide (now ≤ k.validTo)

/-- Models `hasValidKeys`: filters the keys whose window contains `now` and
requires a non-empty `employeeId` and `deviceKey` (JS `!!` on strings). -/
def hasValidKeys (s : KeyBundle) (now : Nat) : Bool :=
  decide ((s.keys.filter (keyValidAt now)).length > 0) &&
    decide (s.employeeId ≠ "") && decide (s.deviceKey ≠ "")

/-- Models `setEmployeeId` (the persistence side effect is modelled
separately by `saveToStorage`). -/
def setEmployeeId (s : KeyBundle) (e : String) : KeyBundle :=
  { s with employeeId := e }

/-- Models `setDeviceKey`. -/
def setDeviceKey (s : KeyBundle) (d : String) : KeyBundle :=
  { s with deviceKey := d }

/-- Models the persisted record `{ keys, employeeId, deviceKey, lastSync,
savedAt }` written by `saveToStorage`. A blob parsed back from storage is
untyped, so each field is an `Option` here. -/
structure StoredData where
  keys : Option (List QRKey)
  employeeId : Option String
  deviceKey : Option String
  lastSync : Option Nat
  savedAt : Option Nat
deriving DecidableEq

/-- Models `saveToStorage`: serializes the full bundle plus `savedAt = Date.now()`. -/
def saveToStorage (s : KeyBundle) (now : Nat) : StoredData :=
  { keys := some s.keys
    employeeId := some s.employeeId
    deviceKey := some s.deviceKey
    lastSync := some s.lastSync
    savedAt := some now }

/-- Models `loadFromStorage`: when nothing is stored the fields are left as
they were; otherwise each field is read with the source's `||` fallback
(`data.keys || []`, `data.employeeId || ""`, `data.deviceKey || ""`,
`data.lastSync || 0`). -/
def loadFromStorage (stored : Option StoredData) (s : KeyBundle) : KeyBundle :=
  match stored with
  | none => s
  | some d =>
      { keys := jsOrList d.keys []
        employeeId := jsOrStr d.employeeId ""
        deviceKey := jsOrStr d.deviceKey ""
        lastSync := jsOrNat d.lastSync 0 }

/-- Models JavaScript `b.toString(16)` for a byte value: lowercase hex digits,
no padding. -/
def jsToString16 (b : Nat) : String :=
  (Nat.toDigits 16 b).asString

/-- Models `.padStart(2, "0")`. -/
def padStart2 (s : String) : String :=
  if s.length ≥ 2 then s else String.mk (List.replicate (2 - s.length) '0') ++ s

/-- Models `b.toString(16).padStart(2, "0")` from the nonce rendering. -/
def byteToHex (b : Nat) : String :=
  padStart2 (jsToString16 b)

/-- Models `Array.from(nonce).map(b => b.toString(16).padStart(2, "0")).join("")`:
joining with the empty separator is concatenation. -/
def nonceHex : List Nat → String
  | [] => ""
  | b :: rest => byteToHex b ++ nonceHex rest

/-- Models `JSON.stringify` escaping of one character of a string value. -/
def escapeChar (c : Char) : String :=
  if c = '"' then "\\\""
  else if c = '\\' then "\\\\"
  else if c.toNat = 8 then "\\b"
  else if c.toNat = 9 then "\\t"
  else if c.toNat = 10 then "\\n"
  else if c.toNat = 12 then "\\f"
  else if c.toNat = 13 then "\\r"
  else if c.toNat < 32 then
    "\\u00" ++ String.mk [Nat.digitChar (c.toNat / 16), Nat.digitChar (c.toNat % 16)]
  else String.mk [c]

/-- Models `JSON.stringify` of a string value: escaped and double-quoted. -/
def jsonStr (s : String) : String :=
  "\"" ++ String.join (s.data.map escapeChar) ++ "\""

/-- Models the `type` union `"TIME_IN" | "BREAK_IN" | "BREAK_OUT" | "TIME_OUT"`. -/
inductive QRType where
  | timeIn | breakIn | breakOut | timeOut
deriving DecidableEq

/-- The string literal each `QRType` constructor stands for. -/
def QRType.str : QRType → String
  | timeIn => "TIME_IN"
  | breakIn => "BREAK_IN"
  | breakOut => "BREAK_OUT"
  | timeOut => "TIME_OUT"

/-- Models the `payload` object literal of `generateOfflineQR`, in the
source's field order. -/
structure QRPayload where
  employeeId : String
  deviceKey : String
  type : String
  timestamp : Nat
  nonce : String
  expiry : Nat
deriving DecidableEq

/-- The `"key":value` pairs of `JSON.stringify(payload)`, in the source's
literal field order: employeeId, deviceKey, type, timestamp, nonce, expiry. -/
def payloadFieldsJson (p : QRPayload) : String :=
  "\"employeeId\":" ++ jsonStr p.employeeId ++
  ",\"deviceKey\":" ++ jsonStr p.deviceKey ++
  ",\"type\":" ++ jsonStr p.type ++
  ",\"timestamp\":" ++ toString p.timestamp ++
  ",\"nonce\":" ++ jsonStr p.nonce ++
  ",\"expiry\":" ++ toString p.expiry

/-- Models `JSON.stringify(payload)` (the string that gets signed). -/
def payloadJson (p : QRPayload) : String :=
  "\x7b" ++ payloadFieldsJson p ++ "\x7d"

/-- Models `JSON.stringify({...payload, signature})`: the object spread keeps
the six payload fields in order and appends `signature` last. -/
def qrDataJson (p : QRPayload) (signature : String) : String :=
  "\x7b" ++ payloadFieldsJson p ++ ",\"signature\":" ++ jsonStr signature ++ "\x7d"

/-- The base64 alphabet used by `btoa`. -/
def base64Table : List Char :=
  "ABCDEFGHIJKLMNOPQRSTUVWXYZabcdefghijklmnopqrstuvwxyz0123456789+/".data

/-- The base64 digit for a 6-bit value. -/
def b64char (n : Nat) : Char :=
  base64Table.getD n '='

/-- Standard unpadded-input base64 of a byte list, 3 bytes → 4 digits, with
`=` padding on a trailing 1- or 2-byte group. -/
def base64Encode : List Nat → String
  | [] => ""
  | [a] =>
      String.mk [b64char (a / 4), b64char (a % 4 * 16), '=', '=']
  | [a, b] =>
      String.mk [b64char (a / 4), b64char (a % 4 * 16 + b / 16),
                 b64char (b % 16 * 4), '=']
  | a :: b :: c :: rest =>
      String.mk [b64char (a / 4), b64char (a % 4 * 16 + b / 16),
                 b64char (b % 16 * 4 + c / 64), b64char (c % 64)] ++
        base64Encode rest

/-- Models `btoa(qrString)`. The strings produced by `generateOfflineQR` are
JSON of escaped content; on such strings `btoa`'s Latin-1 code units coincide
with the UTF-8 bytes used here. -/
def btoaModel (s : String) : String :=
  base64Encode (s.toUTF8.toList.map UInt8.toNat)

/-- The token string built on the success path of `generateOfflineQR`, for a
chosen signing key: nonce hex, `expiry = now + 30 * 1000`, the payload object,
`signature = sha256hex(validKey.key + payloadString)`, the spread object with
`signature`, and `btoa` of its JSON. -/
def mkToken (s : KeyBundle) (ty : QRType) (now : Nat) (nonceBytes : List Nat)
    (sha256hex : String → String) (validKey : QRKey) : String :=
  let nonceString := nonceHex nonceBytes
  let expiry := now + 30 * 1000
  let payload : QRPayload :=
    { employeeId := s.employeeId
      deviceKey := s.deviceKey
      type := ty.str
      timestamp := now
      nonce := nonceString
      expiry := expiry }
  let payloadString := payloadJson payload
  let signature := sha256hex (validKey.key ++ payloadString)
  btoaModel (qrDataJson payload signature)

/-- Models `generateOfflineQR`: find the first key whose window contains
`now` (`this.keys.find(...)`), fail on a missing key, empty `employeeId` or
empty `deviceKey`, otherwise mint the token. The returned `KeyBundle` is the
instance state after the call (the source assigns to no instance field). -/
def generateOfflineQR (s : KeyBundle) (ty : QRType) (now : Nat)
    (nonceBytes : List Nat) (sha256hex : String → String) :
    Option String × KeyBundle :=
  match s.keys.find? (keyValidAt now) with
  | none => (none, s)
  | some validKey =>
      if s.employeeId = "" then (none, s)
      else if s.deviceKey = "" then (none, s)
      else (some (mkToken s ty now nonceBytes sha256hex validKey), s)

/-- A lowercase hexadecimal digit, `0-9` or `a-f`. -/
def isLowerHexChar (c : Char) : Bool :=
  (decide ('0' ≤ c) && decide (c ≤ '9')) || (decide ('a' ≤ c) && decide (c ≤ 'f'))

/-- Characterisation of `List.find?`: a found element satisfies the predicate
and is the FIRST such element in the list's order. -/
theorem find?_first {p : QRKey → Bool} :
    ∀ {l : List QRKey} {k : QRKey}, l.find? p = some k →
    p k = true ∧ ∃ l1 l2, l = l1 ++ k :: l2 ∧ ∀ x ∈ l1, p x = false := by
  intro l
  induction l with
  | nil => intro k h; simp [List.find?] at h
  | cons a t ih =>
      intro k h
      by_cases ha : p a = true
      · rw [List.find?_cons_of_pos t ha] at h
        cases h
        exact ⟨ha, [], t, rfl, by simp⟩
      · rw [List.find?_cons_of_neg t ha] at h
        obtain ⟨hk, l1, l2, heq, hall⟩ := ih h
        refine ⟨hk, a :: l1, l2, by rw [heq]; rfl, ?_⟩
        intro x hx
        rcases List.mem_cons.mp hx with hx | hx
        · subst hx; exact Bool.eq_false_iff.mpr ha
        · exact hall x hx

/-- A filter keeps an element exactly when the list has one satisfying the
predicate. -/
theorem filter_length_pos_iff {p : QRKey → Bool} {l : List QRKey} :
    ((l.filter p).length > 0) ↔ ∃ x ∈ l, p x = true := by
  rw [gt_iff_lt, List.length_pos, Ne, List.filter_eq_nil_iff]
  push_neg
  simp

set_option maxRecDepth 4000 in
/-- For every byte value, `b.toString(16).padStart(2, "0")` is exactly two
lowercase hexadecimal characters. -/
theorem byteToHex_spec : ∀ b < 256,
    (byteToHex b).length = 2 ∧ ∀ c ∈ (byteToHex b).data, isLowerHexChar c = true := by
  decide

/-- The hex rendering of a byte list has two lowercase hex characters per
byte. -/
theorem nonceHex_spec : ∀ (nb : List Nat), (∀ b ∈ nb, b < 256) →
    (nonceHex nb).length = 2 * nb.length ∧
    ∀ c ∈ (nonceHex nb).data, isLowerHexChar c = true := by
  intro nb
  induction nb with
  | nil => intro _; exact ⟨rfl, by intro c hc; simp [nonceHex] at hc⟩
  | cons b t ih =>
      intro h
      have hb := byteToHex_spec b (h b (List.mem_cons_self b t))
      have ht := ih (fun x hx => h x (List.mem_cons_of_mem b hx))
      constructor
      · show (byteToHex b ++ nonceHex t).length = 2 * (t.length + 1)
        rw [String.length_append, hb.1, ht.1]
        ring
      · intro c hc
        rw [show nonceHex (b :: t) = byteToHex b ++ nonceHex t from rfl,
          String.data_append] at hc
        rcases List.mem_append.mp hc with hc | hc
        · exact hb.2 c hc
        · exact ht.2 c hc

/-- A sample signing key valid on the window [50, 150]. -/
def kEx : QRKey :=
  { timestamp := 0, key := "abc", validFrom := 50, validTo := 150, hourIndex := none }

/-- A sample ready store state. -/
def sEx : KeyBundle :=
  { keys := [kEx], employeeId := "E1", deviceKey := "D1", lastSync := 0 }

/-- A sample stand-in for the abstract SHA-256 hex digest. -/
def idHash : String → String := fun s => s

/-- Sample platform nonce bytes. -/
def nbEx : List Nat := [0, 1, 2, 255, 16, 32, 171, 205]

/-- The token minted from the sample state at time 100. -/
def tokEx : String := mkToken sEx QRType.timeIn 100 nbEx idHash kEx

/-- A sample employee object carried by a sync response. -/
def empEx : SyncEmployee :=
  { id := "E9", employeeCode := "C9", name := "N", activeDevices := 1 }

/-- A sample 2xx body with all fields present and a nonzero timestamp. -/
def rEx : KeySyncResponse :=
  { keys := some [kEx], syncTimestamp := some 42, employee := some empEx }

/-- A sample 2xx body whose syncTimestamp is present but zero. -/
def rZeroTs : KeySyncResponse :=
  { keys := some [kEx], syncTimestamp := some 0, employee := some empEx }

/-- The boolean window test agrees with the arithmetic window condition. -/
theorem keyValidAt_iff (now : Nat) (k : QRKey) :
    keyValidAt now k = true ↔ k.validFrom ≤ now ∧ now ≤ k.validTo := by
  simp [keyValidAt]

/-- Characterisation of `hasValidKeys` on an arbitrary state. -/
theorem hasValidKeys_char (s : KeyBundle) (now : Nat) :
    hasValidKeys s now = true ↔
      ((∃ k ∈ s.keys, k.validFrom ≤ now ∧ now ≤ k.validTo) ∧
        s.employeeId ≠ "" ∧ s.deviceKey ≠ "") := by
  unfold hasValidKeys
  rw [Bool.and_eq_true, Bool.and_eq_true, decide_eq_true_eq, decide_eq_true_eq,
    decide_eq_true_eq, filter_length_pos_iff]
  constructor
  · rintro ⟨⟨⟨k, hk, hv⟩, he⟩, hd⟩
    exact ⟨⟨k, hk, (keyValidAt_iff now k).mp hv⟩, he, hd⟩
  · rintro ⟨⟨k, hk, hv⟩, he, hd⟩
    exact ⟨⟨⟨k, hk, (keyValidAt_iff now k).mpr hv⟩, he⟩, hd⟩

/-- Claim C4: `hasValidKeys` is true exactly when some stored key's window
contains the call time and both `employeeId` and `deviceKey` are non-empty;
it is a pure read of the in-memory bundle, so the same characterisation holds
immediately on the states produced by `setEmployeeId`, `setDeviceKey` and a
successful sync, with no reload from storage and no mutation. -/
theorem hasValidKeys_iff (s : KeyBundle) (now : Nat) :
    (hasValidKeys s now = true ↔
      ((∃ k ∈ s.keys, k.validFrom ≤ now ∧ now ≤ k.validTo) ∧
        s.employeeId ≠ "" ∧ s.deviceKey ≠ "")) ∧
    (∀ e, hasValidKeys (setEmployeeId s e) now = true ↔
      ((∃ k ∈ s.keys, k.validFrom ≤ now ∧ now ≤ k.validTo) ∧
        e ≠ "" ∧ s.deviceKey ≠ "")) ∧
    (∀ d, hasValidKeys (setDeviceKey s d) now = true ↔
      ((∃ k ∈ s.keys, k.validFrom ≤ now ∧ now ≤ k.validTo) ∧
        s.employeeId ≠ "" ∧ d ≠ "")) ∧
    (∀ r t0, hasValidKeys (syncKeys s (FetchResult.okJson r) t0).2 now = true ↔
      ((∃ k ∈ jsOrList r.keys [], k.validFrom ≤ now ∧ now ≤ k.validTo) ∧
        employeeIdOf r.employee ≠ "" ∧ s.deviceKey ≠ "")) :=
  ⟨hasValidKeys_char s now,
   fun e => hasValidKeys_char (setEmployeeId s e) now,
   fun d => hasValidKeys_char (setDeviceKey s d) now,
   fun r t0 => hasValidKeys_char (syncKeys s (FetchResult.okJson r) t0).2 now⟩

/-- Witness for C4: the sample ready state is reported ready at time 100. -/
theorem hasValidKeys_iff_w : hasValidKeys sEx 100 = true := by
  have h := hasValidKeys_iff sEx 100
  exact h.1.mpr (by decide)

/-- Claim C5: every sync failure — network error, non-2xx response, malformed
2xx body — returns `false` and leaves the bundle exactly as it was; in
particular minting behaves exactly as before the failed call. -/
theorem syncKeys_failure_frame (s : KeyBundle) (now status : Nat) (body : String) :
    syncKeys s FetchResult.netError now = (false, s) ∧
    syncKeys s (FetchResult.httpError status body) now = (false, s) ∧
    syncKeys s FetchResult.okMalformed now = (false, s) ∧
    (∀ ty t nb h, generateOfflineQR (syncKeys s FetchResult.netError now).2 ty t nb h =
      generateOfflineQR s ty t nb h) :=
  ⟨rfl, rfl, rfl, fun _ _ _ _ => rfl⟩

/-- Claim C6 counterexample: a successful sync whose body carries
`syncTimestamp = 0` — present, not absent — still sets `lastSync` to the
local clock (777 here), not to the carried 0: the JS `||` fallback fires on
any falsy value, zero included. -/
theorem syncKeys_lastSync_cex :
    rZeroTs.syncTimestamp = some 0 ∧
    (syncKeys sEx (FetchResult.okJson rZeroTs) 777).1 = true ∧
    (syncKeys sEx (FetchResult.okJson rZeroTs) 777).2.lastSync = 777 ∧
    (777 : Nat) ≠ 0 :=
  ⟨rfl, rfl, rfl, by decide⟩

/-- Claim C6 (amended): a successful sync wholesale-replaces the key set with
the carried one, replaces employeeId with the response's employee id, leaves
deviceKey unchanged, and sets lastSync to the carried syncTimestamp — falling
back to the local clock when the timestamp is absent or zero. -/
theorem syncKeys_success_replaces (s : KeyBundle) (r : KeySyncResponse)
    (now : Nat) (S2 : List QRKey) (hk : r.keys = some S2) :
    (syncKeys s (FetchResult.okJson r) now).1 = true ∧
    (syncKeys s (FetchResult.okJson r) now).2.keys = S2 ∧
    (∀ e, r.employee = some e →
      (syncKeys s (FetchResult.okJson r) now).2.employeeId = e.id) ∧
    (syncKeys s (FetchResult.okJson r) now).2.deviceKey = s.deviceKey ∧
    (∀ ts, r.syncTimestamp = some ts → ts ≠ 0 →
      (syncKeys s (FetchResult.okJson r) now).2.lastSync = ts) ∧
    (r.syncTimestamp = none →
      (syncKeys s (FetchResult.okJson r) now).2.lastSync = now) ∧
    (r.syncTimestamp = some 0 →
      (syncKeys s (FetchResult.okJson r) now).2.lastSync = now) := by
  refine ⟨rfl, ?_, ?_, rfl, ?_, ?_, ?_⟩
  · simp [syncKeys, jsOrList, hk]
  · intro e he
    simp only [syncKeys, employeeIdOf, he, Option.map_some, jsOrStr]
    split <;> simp_all
  · intro ts hts hne
    simp [syncKeys, jsOrNat, hts, hne]
  · intro h0
    simp [syncKeys, jsOrNat, h0]
  · intro h0
    simp [syncKeys, jsOrNat, h0]

/-- Witness for the amended C6 on a concrete full response. -/
theorem syncKeys_success_replaces_w :
    (syncKeys sEx (FetchResult.okJson rEx) 777).2.keys = [kEx] ∧
    (syncKeys sEx (FetchResult.okJson rEx) 777).2.employeeId = "E9" ∧
    (syncKeys sEx (FetchResult.okJson rEx) 777).2.deviceKey = "D1" ∧
    (syncKeys sEx (FetchResult.okJson rEx) 777).2.lastSync = 42 := by
  have h := syncKeys_success_replaces sEx rEx 777 [kEx] rfl
  exact ⟨h.2.1, h.2.2.1 empEx rfl, h.2.2.2.1, h.2.2.2.2.1 42 rfl (by decide)⟩

/-- Claim C7: the mint never mutates the store — on every path, success or
failure, the state after `generateOfflineQR` is the state before. -/
theorem generateOfflineQR_frame (s : KeyBundle) (ty : QRType) (now : Nat)
    (nb : List Nat) (h : String → String) :
    (generateOfflineQR s ty now nb h).2 = s := by
  unfold generateOfflineQR
  rcases hf : s.keys.find? (keyValidAt now) with _ | k
  · rfl
  · by_cases he : s.employeeId = "" <;> by_cases hd : s.deviceKey = "" <;>
      simp [he, hd]

/-- Claim C8: persistence round-trip — loading what `saveToStorage` wrote
reproduces the same keys, employeeId, deviceKey and lastSync, whatever
in-memory state the loader started from. -/
theorem storage_round_trip (s s0 : KeyBundle) (now : Nat) :
    loadFromStorage (some (saveToStorage s now)) s0 = s := by
  cases s with
  | mk keys employeeId deviceKey lastSync =>
      simp only [loadFromStorage, saveToStorage, jsOrList, jsOrStr, jsOrNat,
        KeyBundle.mk.injEq]
      split_ifs <;> simp_all

/-- Claim C9: a sync can report success yet leave the store not ready: a 2xx
body without an employee object overwrites employeeId with the empty string,
and a 2xx body without a keys field empties the key set — both still return
`true`, and `hasValidKeys` is false at every time afterwards. -/
theorem syncKeys_true_not_ready (s : KeyBundle) (now t : Nat)
    (kopt : Option (List QRKey)) (ts ts2 : Option Nat) (emp : Option SyncEmployee) :
    ((syncKeys s (FetchResult.okJson ⟨kopt, ts, none⟩) now).1 = true ∧
      (syncKeys s (FetchResult.okJson ⟨kopt, ts, none⟩) now).2.employeeId = "" ∧
      hasValidKeys (syncKeys s (FetchResult.okJson ⟨kopt, ts, none⟩) now).2 t = false) ∧
    ((syncKeys s (FetchResult.okJson ⟨none, ts2, emp⟩) now).1 = true ∧
      (syncKeys s (FetchResult.okJson ⟨none, ts2, emp⟩) now).2.keys = [] ∧
      hasValidKeys (syncKeys s (FetchResult.okJson ⟨none, ts2, emp⟩) now).2 t = false) := by
  refine ⟨⟨rfl, rfl, ?_⟩, ⟨rfl, rfl, ?_⟩⟩
  · simp [hasValidKeys, syncKeys, employeeIdOf, jsOrStr]
  · simp [hasValidKeys, syncKeys, jsOrList]

/-- Claim C10: determinism — two mints from the same store state, action
type, clock value, nonce bytes and digest function return identical results. -/
theorem generateOfflineQR_deterministic (s1 s2 : KeyBundle) (ty1 ty2 : QRType)
    (t1 t2 : Nat) (nb1 nb2 : List Nat) (h1 h2 : String → String)
    (hs : s1 = s2) (hty : ty1 = ty2) (ht : t1 = t2) (hnb : nb1 = nb2)
    (hh : h1 = h2) :
    generateOfflineQR s1 ty1 t1 nb1 h1 = generateOfflineQR s2 ty2 t2 nb2 h2 := by
  subst hs; subst hty; subst ht; subst hnb; subst hh; rfl

/-- Witness for C10 at concrete inputs. -/
theorem generateOfflineQR_deterministic_w :
    generateOfflineQR sEx QRType.timeIn 100 nbEx idHash =
      generateOfflineQR sEx QRType.timeIn 100 nbEx idHash :=
  generateOfflineQR_deterministic sEx sEx QRType.timeIn QRType.timeIn 100 100
    nbEx nbEx idHash idHash rfl rfl rfl rfl rfl

/-- Some key's window contains `now` exactly when the source's `find` call
hits. -/
theorem exists_window_iff_find (s : KeyBundle) (now : Nat) :
    (∃ k ∈ s.keys, k.validFrom ≤ now ∧ now ≤ k.validTo) ↔
      (s.keys.find? (keyValidAt now)).isSome = true := by
  rw [List.find?_isSome]
  simp [keyValidAt]

/-- Claim C1: the mint returns a token exactly when some stored key's window
contains `now` and both `employeeId` and `deviceKey` are non-empty; on each
failure it returns `null` (the embedding is a total function — the source
throws on no path); and on success the key used for signing is the FIRST
window-containing key in the order the store holds. -/
theorem generateOfflineQR_success_iff (s : KeyBundle) (ty : QRType) (now : Nat)
    (nb : List Nat) (h : String → String) :
    ((generateOfflineQR s ty now nb h).1.isSome = true ↔
      ((∃ k ∈ s.keys, k.validFrom ≤ now ∧ now ≤ k.validTo) ∧
        s.employeeId ≠ "" ∧ s.deviceKey ≠ "")) ∧
    (∀ k, s.keys.find? (keyValidAt now) = some k →
      s.employeeId ≠ "" → s.deviceKey ≠ "" →
      (keyValidAt now k = true ∧
        (∃ l1 l2, s.keys = l1 ++ k :: l2 ∧ ∀ x ∈ l1, keyValidAt now x = false) ∧
        (generateOfflineQR s ty now nb h).1 = some (mkToken s ty now nb h k))) := by
  constructor
  · rw [exists_window_iff_find]
    rcases hf : s.keys.find? (keyValidAt now) with _ | k
    · simp [generateOfflineQR, hf]
    · by_cases he : s.employeeId = "" <;> by_cases hd : s.deviceKey = "" <;>
        simp [generateOfflineQR, hf, he, hd]
  · intro k hf he hd
    have h1 := find?_first hf
    exact ⟨h1.1, h1.2, by simp [generateOfflineQR, hf, he, hd]⟩

/-- Witness for C1: on the sample ready state at time 100, the mint succeeds
and signs with the (only, hence first) valid key. -/
theorem generateOfflineQR_success_iff_w :
    (generateOfflineQR sEx QRType.timeIn 100 nbEx idHash).1 =
      some (mkToken sEx QRType.timeIn 100 nbEx idHash kEx) := by
  have h := generateOfflineQR_success_iff sEx QRType.timeIn 100 nbEx idHash
  exact (h.2 kEx rfl (by decide) (by decide)).2.2

/-- Claim C2: every token is `btoa` of the JSON object whose fields appear in
exactly the order employeeId, deviceKey, type, timestamp, nonce, expiry,
signature; the nonce is the 16-lowercase-hex-character rendering of the 8
platform random bytes; and the signature is the (abstracted SHA-256 hex)
digest of the signing key's secret concatenated with the JSON of the
six-field payload in that same order. -/
theorem token_encoding_format (s : KeyBundle) (ty : QRType) (now : Nat)
    (nb : List Nat) (h : String → String) (tok : String)
    (htok : (generateOfflineQR s ty now nb h).1 = some tok)
    (hlen : nb.length = 8) (hbytes : ∀ b ∈ nb, b < 256) :
    ∃ k, s.keys.find? (keyValidAt now) = some k ∧
      tok = btoaModel ("\x7b" ++
        ("\"employeeId\":" ++ jsonStr s.employeeId ++
         ",\"deviceKey\":" ++ jsonStr s.deviceKey ++
         ",\"type\":" ++ jsonStr ty.str ++
         ",\"timestamp\":" ++ toString now ++
         ",\"nonce\":" ++ jsonStr (nonceHex nb) ++
         ",\"expiry\":" ++ toString (now + 30 * 1000)) ++
        ",\"signature\":" ++ jsonStr (h (k.key ++
          ("\x7b" ++
           ("\"employeeId\":" ++ jsonStr s.employeeId ++
            ",\"deviceKey\":" ++ jsonStr s.deviceKey ++
            ",\"type\":" ++ jsonStr ty.str ++
            ",\"timestamp\":" ++ toString now ++
            ",\"nonce\":" ++ jsonStr (nonceHex nb) ++
            ",\"expiry\":" ++ toString (now + 30 * 1000)) ++ "\x7d"))) ++
        "\x7d") ∧
      (nonceHex nb).length = 16 ∧
      (∀ c ∈ (nonceHex nb).data, isLowerHexChar c = true) := by
  rcases hf : s.keys.find? (keyValidAt now) with _ | k
  · simp [generateOfflineQR, hf] at htok
  · by_cases he : s.employeeId = ""
    · simp [generateOfflineQR, hf, he] at htok
    · by_cases hd : s.deviceKey = ""
      · simp [generateOfflineQR, hf, he, hd] at htok
      · simp only [generateOfflineQR, hf, if_neg he, if_neg hd,
          Option.some.injEq] at htok
        subst htok
        refine ⟨k, rfl, ?_, ?_, (nonceHex_spec nb hbytes).2⟩
        · rfl
        · rw [(nonceHex_spec nb hbytes).1, hlen]

/-- Witness for C2 on the sample token. -/
theorem token_encoding_format_w : (nonceHex nbEx).length = 16 := by
  have h := token_encoding_format sEx QRType.timeIn 100 nbEx idHash tokEx rfl
    (by decide) (by decide)
  obtain ⟨k, _, _, hl, _⟩ := h
  exact hl

/-- Claim C3: every minted token encodes a payload whose `expiry` minus
`timestamp` is exactly 30000 milliseconds, `timestamp` being the clock value
captured at mint time. -/
theorem token_expiry_window (s : KeyBundle) (ty : QRType) (now : Nat)
    (nb : List Nat) (h : String → String) (tok : String)
    (htok : (generateOfflineQR s ty now nb h).1 = some tok) :
    ∃ p sig, tok = btoaModel (qrDataJson p sig) ∧
      p.timestamp = now ∧ p.expiry - p.timestamp = 30000 := by
  rcases hf : s.keys.find? (keyValidAt now) with _ | k
  · simp [generateOfflineQR, hf] at htok
  · by_cases he : s.employeeId = ""
    · simp [generateOfflineQR, hf, he] at htok
    · by_cases hd : s.deviceKey = ""
      · simp [generateOfflineQR, hf, he, hd] at htok
      · simp only [generateOfflineQR, hf, if_neg he, if_neg hd,
          Option.some.injEq] at htok
        subst htok
        refine ⟨⟨s.employeeId, s.deviceKey, ty.str, now, nonceHex nb,
            now + 30 * 1000⟩,
          h (k.key ++ payloadJson ⟨s.employeeId, s.deviceKey, ty.str, now,
            nonceHex nb, now + 30 * 1000⟩), rfl, rfl, ?_⟩
        show now + 30 * 1000 - now = 30000
        omega

/-- Witness for C3 on the sample token. -/
theorem token_expiry_window_w :
    ∃ p sig, tokEx = btoaModel (qrDataJson p sig) ∧
      p.timestamp = 100 ∧ p.expiry - p.timestamp = 30000 :=
  token_expiry_window sEx QRType.timeIn 100 nbEx idHash tokEx rfl

end JegQR
